import Mathlib

/-!
Shallow embedding of `dlurls.py`: the rate-limit header parser, the
wait-time policy, the path resolver and the download orchestration loop.
Python semantics that can raise (`int(...)`, attribute access on `None`,
`int - builtin_function`) are modelled with `Except PyErr`.
Machine-independent: Python integers are unbounded, so `Int`/`Nat` are used
directly; the float-valued wait times are modelled over `ℚ` (all waits the
code produces are results of exact integer `min`, powers of two, or a
single division).
-/

/-- Python exception kinds that the modelled code paths can raise. -/
inductive PyErr
  | valueError
  | typeError
  | attributeError
deriving Repr, DecidableEq

/-- Characters stripped by Python `str.strip()` (ASCII whitespace; the
claims use no exotic Unicode whitespace). -/
def isPyWs (c : Char) : Bool :=
  c = ' ' || c = '\t' || c = '\n' || c = '\r'

/-- Model of Python `str.strip()`. -/
def pyStrip (s : String) : String :=
  ⟨((s.data.dropWhile isPyWs).reverse.dropWhile isPyWs).reverse⟩

/-- Model of Python `str.lower()` restricted to ASCII letters. -/
def lowerStr (s : String) : String :=
  ⟨s.data.map Char.toLower⟩

/-- Model of Python `str.lstrip("/")`. -/
def lstripSlash (s : String) : String :=
  ⟨s.data.dropWhile (· = '/')⟩

/-- Model of Python `int(s)` for base-10 string input: optional surrounding
whitespace, optional sign, then one or more ASCII digits.  `none` models
`int` raising `ValueError`.  (Digit-group underscores and Unicode digits
are outside the scope of the modelled inputs.) -/
def pyInt (s : String) : Option Int :=
  let t := (pyStrip s).data
  let (sign, digits) :=
    match t with
    | '-' :: rest => ((-1 : Int), rest)
    | '+' :: rest => ((1 : Int), rest)
    | _ => ((1 : Int), t)
  if digits ≠ [] && digits.all Char.isDigit then
    some (sign * (digits.foldl (fun acc c => acc * 10 + (c.toNat - 48)) (0 : Nat) : Nat))
  else
    none

/-- Response headers: an insertion-ordered association list standing for the
Python dict / `requests` header mapping. -/
abbrev Headers := List (String × String)

/-- Model of `headers[key]`: first value stored under exactly `key`. -/
def dictGet (headers : Headers) (key : String) : Option String :=
  (headers.find? (fun kv => kv.1 = key)).map (·.2)

/-- Full-match of the compiled pattern `(X-|)Rate-?Limit-Remaining` with
`re.IGNORECASE`: optional leading `x-`, `rate`, optional `-`, `limit`,
mandatory `-`, `remaining`.  The regular language is finite, so the matcher
is its explicit lower-cased enumeration. -/
def remainingKeyMatches (key : String) : Bool :=
  let s := lowerStr key
  s = "x-rate-limit-remaining" || s = "rate-limit-remaining" ||
  s = "x-ratelimit-remaining" || s = "ratelimit-remaining"

/-- Full-match of `(X-|)Rate-?Limit-Limit` with `re.IGNORECASE`. -/
def limitKeyMatches (key : String) : Bool :=
  let s := lowerStr key
  s = "x-rate-limit-limit" || s = "rate-limit-limit" ||
  s = "x-ratelimit-limit" || s = "ratelimit-limit"

/-- Full-match of `Retry-?After` with `re.IGNORECASE`. -/
def retryAfterKeyMatches (key : String) : Bool :=
  let s := lowerStr key
  s = "retry-after" || s = "retryafter"

/-- Full-match of `(X-|)Rate-?Limit-Reset` with `re.IGNORECASE`. -/
def resetKeyMatches (key : String) : Bool :=
  let s := lowerStr key
  s = "x-rate-limit-reset" || s = "rate-limit-reset" ||
  s = "x-ratelimit-reset" || s = "ratelimit-reset"

/-- Source `find_key_matching(headers, regex)`: first key (in insertion order) the
pattern fully matches, else `None`. -/
def find_key_matching (headers : Headers) (matcher : String → Bool) : Option String :=
  match headers with
  | [] => none
  | (k, _) :: rest => if matcher k then some k else find_key_matching rest matcher

/-- Source `RateLimitState` enum of the source. -/
inductive RateLimitState
  | UNKNOWN
  | KNOWN
deriving Repr, DecidableEq

/-- Source `RateLimitPair` dataclass of the source. -/
structure RateLimitPair where
  n : Int
  state : RateLimitState
deriving Repr, DecidableEq

/-- Common body of `get_quota_remaining` / `get_rate_limit` /
`get_retry_after` / `get_ratelimit_reset`: the four source functions are
identical up to the compiled pattern.  `int(headers[key])` raises
`ValueError` on a non-numeric value, modelled as `.error .valueError`. -/
def lookup_signal (matcher : String → Bool) (headers : Headers) :
    Except PyErr RateLimitPair :=
  match find_key_matching headers matcher with
  | some key =>
    match dictGet headers key with
    | some v =>
      match pyInt v with
      | some m => .ok ⟨m, .KNOWN⟩
      | none => .error .valueError
    | none => .error .valueError
  | none => .ok ⟨0, .UNKNOWN⟩

/-- Source `get_quota_remaining(headers)`. -/
def get_quota_remaining (headers : Headers) : Except PyErr RateLimitPair :=
  lookup_signal remainingKeyMatches headers

/-- Source `get_rate_limit(headers)`. -/
def get_rate_limit (headers : Headers) : Except PyErr RateLimitPair :=
  lookup_signal limitKeyMatches headers

/-- Source `get_retry_after(headers)`. -/
def get_retry_after (headers : Headers) : Except PyErr RateLimitPair :=
  lookup_signal retryAfterKeyMatches headers

/-- Source `get_ratelimit_reset(headers)`. -/
def get_ratelimit_reset (headers : Headers) : Except PyErr RateLimitPair :=
  lookup_signal resetKeyMatches headers

/-- Source `RateLimits` dataclass of the source. -/
structure RateLimits where
  remaining : RateLimitPair
  rate_limit : RateLimitPair
  retry_after : RateLimitPair
  reset_after : RateLimitPair
deriving Repr, DecidableEq

/-- Source `get_rate_limits(headers)`; any `ValueError` from the four getters
propagates (the source calls them outside any `try`). -/
def get_rate_limits (headers : Headers) : Except PyErr RateLimits := do
  let quota_remaining ← get_quota_remaining headers
  let rate_limit ← get_rate_limit headers
  let retry_after ← get_retry_after headers
  let reset_after ← get_ratelimit_reset headers
  return ⟨quota_remaining, rate_limit, retry_after, reset_after⟩

/-- Source `blank_rate_limits()`. -/
def blank_rate_limits : RateLimits :=
  ⟨⟨0, .UNKNOWN⟩, ⟨0, .UNKNOWN⟩, ⟨0, .UNKNOWN⟩, ⟨0, .UNKNOWN⟩⟩

/-- Source `MAX_WAIT_TIME = 3600`. -/
def MAX_WAIT_TIME : Int := 3600

/-- Source `CONNECTION_ERROR = -1`. -/
def CONNECTION_ERROR : Int := -1

/-- Source `DownloadResult` dataclass of the source. -/
structure DownloadResult where
  url : String
  success : Bool
  status_code : Int
  rate_limits : RateLimits
  skip : Bool
  attempt_number : Nat := 0
deriving Repr, DecidableEq

/-- Source `DownloadResult.wait_time_policy`.  The epoch branch of the source
evaluates `self.rate_limits.reset_after.n - time.time`, subtracting the
built-in function object itself (the call parentheses are missing), which
raises `TypeError`; that branch is therefore `.error .typeError` and the
current time is never actually read. -/
def DownloadResult.wait_time_policy (r : DownloadResult) : Except PyErr ℚ :=
  if r.skip then
    .ok 0
  else if r.rate_limits.retry_after.n > 0 ∧
      r.rate_limits.retry_after.state = RateLimitState.KNOWN then
    .ok ((min r.rate_limits.retry_after.n MAX_WAIT_TIME : Int) : ℚ)
  else if r.rate_limits.remaining.n > 0 ∧
      r.rate_limits.remaining.state = RateLimitState.KNOWN ∧
      r.rate_limits.reset_after.n > 0 ∧
      r.rate_limits.reset_after.state = RateLimitState.KNOWN then
    if r.rate_limits.reset_after.n > 1000000000 then
      .error .typeError
    else
      .ok ((r.rate_limits.reset_after.n : ℚ) / (r.rate_limits.remaining.n : ℚ))
  else if r.status_code = 429 ∨ r.status_code = 503 ∨
      r.status_code = CONNECTION_ERROR then
    .ok ((2 : ℚ) ^ r.attempt_number)
  else if r.attempt_number > 0 then
    .ok ((2 : ℚ) ^ r.attempt_number)
  else
    .ok 0

/-- Result of `urllib.parse.urlparse` restricted to the components the
source reads (`scheme`, `netloc`, `path`). -/
structure ParsedUrl where
  scheme : String
  netloc : String
  path : String
deriving Repr, DecidableEq

/-- Split a character list at the first occurrence of the literal `://`. -/
def splitSchemeSep : List Char → Option (List Char × List Char)
  | [] => none
  | ':' :: '/' :: '/' :: rest => some ([], rest)
  | c :: rest =>
    match splitSchemeSep rest with
    | some (a, b) => some (c :: a, b)
    | none => none

/-- Modelled from the Python standard library: `urllib.parse.urlparse`
restricted to inputs of the forms used by the claims — either
`scheme://netloc/path` or a string with no `://` (which yields empty
scheme and netloc, so `is_valid_url` rejects it).  Query, fragment and
`scheme:relative` forms are outside the modelled input space. -/
def urlparse (url : String) : ParsedUrl :=
  match splitSchemeSep url.data with
  | none => ⟨"", "", url⟩
  | some (sch, rest) =>
    ⟨⟨sch⟩, ⟨rest.takeWhile (· ≠ '/')⟩, ⟨rest.dropWhile (· ≠ '/')⟩⟩

/-- Source `is_valid_url(url)`: the parse result when both scheme and netloc are
non-empty (truthy), else `None`. -/
def is_valid_url (url : String) : Option ParsedUrl :=
  let parsed := urlparse url
  if parsed.scheme ≠ "" && parsed.netloc ≠ "" then some parsed else none

/-- Split a character list on a separator character
(`"a/b".split("/") = ["a", "b"]`, `"".split("/") = [""]`). -/
def splitOnSep (sep : Char) : List Char → List (List Char)
  | [] => [[]]
  | c :: rest =>
    match splitOnSep sep rest with
    | [] => if c = sep then [[], []] else [[c]]
    | piece :: pieces =>
      if c = sep then [] :: piece :: pieces else (c :: piece) :: pieces

/-- Model of `os.path.basename` on POSIX paths: the part after the last
slash. -/
def basename (p : String) : String :=
  ⟨(splitOnSep '/' p.data).getLastD []⟩

/-- Split a character list just before its last `.`, when one exists. -/
def splitAtLastDot : List Char → Option (List Char × List Char)
  | [] => none
  | c :: rest =>
    match splitAtLastDot rest with
    | some (a, b) => some (c :: a, b)
    | none => if c = '.' then some ([], c :: rest) else none

/-- Model of `os.path.splitext` applied to a basename (no slashes): split
at the last dot unless every character before it is itself a dot (leading
dots never start an extension, so `.bashrc` has no extension). -/
def splitext_base (b : String) : String × String :=
  match splitAtLastDot b.data with
  | none => (b, "")
  | some (root, ext) =>
    if root.any (· ≠ '.') then (⟨root⟩, ⟨ext⟩) else (b, "")

/-- Source `is_valid_filename(path)`: `all(os.path.splitext(os.path.basename(path)))` —
both the root and the extension of the basename are non-empty (truthy). -/
def is_valid_filename (path : String) : Bool :=
  let (root, ext) := splitext_base (basename path)
  root ≠ "" && ext ≠ ""

/-- Model of POSIX `os.path.join(a, b)` for two components: `b` wins when
absolute; otherwise the parts are glued with exactly one slash. -/
def path_join (a b : String) : String :=
  if b.data.head? = some '/' then b
  else if a = "" then b
  else if a.data.getLast? = some '/' then a ++ b
  else a ++ "/" ++ b

/-- Model of Python `s.replace(pat, "")` (non-empty `pat`): remove every
left-to-right non-overlapping occurrence of `pat`.  An empty `pat` with an
empty replacement leaves the string unchanged, as in Python. -/
def removeOccurrences (pat : List Char) : (s : List Char) → List Char
  | [] => []
  | c :: rest =>
    if pat ≠ [] ∧ pat.isPrefixOf (c :: rest) then
      removeOccurrences pat (rest.drop (pat.length - 1))
    else
      c :: removeOccurrences pat rest
termination_by s => s.length
decreasing_by
  · simp only [List.length_cons, List.length_drop]
    omega
  · simp only [List.length_cons]
    omega

/-- The destination path computed by `download_file` (lines 304–308 of the
source): take the URL path with leading slashes stripped, delete every
configured prefix from it as a plain substring, strip leading slashes
again and join onto the download directory. -/
def local_path_for (download_dir : String) (prefixes_to_remove : List String)
    (parsed : ParsedUrl) : String :=
  let path0 := lstripSlash parsed.path
  let path1 := prefixes_to_remove.foldl
    (fun p pfx => ⟨removeOccurrences (lstripSlash pfx).data p.data⟩) path0
  path_join download_dir (lstripSlash path1)

/-- The mutable counters of the `Downloader` object. -/
structure RunCounters where
  number_of_successful_downloads : Nat
  number_of_failed_downloads : Nat
  number_of_existing_files : Nat
deriving Repr, DecidableEq

/-- The configuration fields of the `Downloader` object. -/
structure DownloaderConfig where
  download_dir : String
  prefixes_to_remove : List String
  max_tries : Nat
deriving Repr

/-- One HTTP response as the code consumes it: status code, headers, and
the concatenation of the streamed body chunks. -/
structure HttpResponse where
  status_code : Int
  headers : Headers
  body : List UInt8
deriving Repr, DecidableEq

/-- Outcome of `requests.get`: either one of the two caught transport
exceptions (`ConnectionError` / `Timeout`) or a response. -/
inductive HttpResult
  | conn_failure
  | response (r : HttpResponse)
deriving Repr

/-- External world for one attempt: what the filesystem-existence check
returns, what `requests.get` returns and whether streaming the body to
disk succeeds. -/
structure AttemptEnv where
  fs_exists : String → Bool
  http : HttpResult
  write_ok : Bool

/-- The `int(content_length)` evaluation on line 343 of the source: the
`Content-Length` header (case-insensitive lookup, as in `requests`) is
parsed when present and truthy (non-empty); a non-numeric value raises
`ValueError`. -/
def content_length_check (headers : Headers) : Except PyErr Unit :=
  match headers.find? (fun kv => lowerStr kv.1 = "content-length") with
  | some kv =>
    if kv.2 = "" then .ok ()
    else
      match pyInt kv.2 with
      | some _ => .ok ()
      | none => .error .valueError
  | none => .ok ()

/-- Source `Downloader.download_file(url, attempt_number)`.  Returns the optional
`DownloadResult` (`none` models the bare `return` on an invalid URL), the
updated counters, and the write performed (destination path and bytes),
when any. -/
def download_file (cfg : DownloaderConfig) (env : AttemptEnv) (st : RunCounters)
    (url : String) (attempt_number : Nat) :
    Except PyErr (Option DownloadResult × RunCounters × Option (String × List UInt8)) :=
  let url := pyStrip url
  match is_valid_url url with
  | none => .ok (none, st, none)
  | some parsed =>
    let lp := local_path_for cfg.download_dir cfg.prefixes_to_remove parsed
    if ¬ is_valid_filename lp then
      .ok (some ⟨url, false, 0, blank_rate_limits, true, attempt_number⟩, st, none)
    else if env.fs_exists lp then
      .ok (some ⟨url, true, 200, blank_rate_limits, true, attempt_number⟩,
        { st with number_of_existing_files := st.number_of_existing_files + 1 }, none)
    else
      match env.http with
      | .conn_failure =>
        .ok (some ⟨url, false, CONNECTION_ERROR, blank_rate_limits, false, attempt_number⟩,
          { st with number_of_failed_downloads := st.number_of_failed_downloads + 1 }, none)
      | .response r =>
        match get_rate_limits r.headers with
        | .error e => .error e
        | .ok rate_limits =>
          match content_length_check r.headers with
          | .error e => .error e
          | .ok _ =>
            let success := decide (200 ≤ r.status_code ∧ r.status_code < 300)
            let dr : DownloadResult :=
              ⟨url, success, r.status_code, rate_limits, false, attempt_number⟩
            if success then
              if env.write_ok then
                .ok (some dr,
                  { st with number_of_successful_downloads :=
                      st.number_of_successful_downloads + 1 },
                  some (lp, r.body))
              else
                .ok (some dr,
                  { st with number_of_failed_downloads :=
                      st.number_of_failed_downloads + 1 },
                  none)
            else
              .ok (some dr,
                { st with number_of_failed_downloads :=
                    st.number_of_failed_downloads + 1 },
                none)

/-- The per-URL attempt loop of `download_all` (lines 375–386): `fuel`
iterations remain, `k` is the 0-based loop index (`download_file` is called
with `k + 1`), the accumulator holds the previous iteration's `result`.
`result.wait_time_policy()` on the `None` returned for an invalid URL
raises `AttributeError`; the policy itself can raise `TypeError`.  Returns
the final `result`, the counters and the number of `download_file` calls
made. -/
def attempt_loop (cfg : DownloaderConfig) (env : Nat → AttemptEnv) (url : String) :
    (fuel : Nat) → (k : Nat) → RunCounters → Option DownloadResult →
    Except PyErr (Option DownloadResult × RunCounters × Nat)
  | 0, _, st, res => .ok (res, st, 0)
  | fuel + 1, k, st, _ =>
    match download_file cfg (env k) st url (k + 1) with
    | .error e => .error e
    | .ok (res?, st', _write) =>
      match res? with
      | none => .error .attributeError
      | some res =>
        match res.wait_time_policy with
        | .error e => .error e
        | .ok _sleep_time =>
          if res.success || res.skip then
            .ok (some res, st', 1)
          else
            match attempt_loop cfg env url fuel (k + 1) st' (some res) with
            | .ok (r, st'', m) => .ok (r, st'', m + 1)
            | .error e => .error e

/-- The outer loop of `Downloader.download_all` over the URL list; `i`
indexes the URL for the environment.  After a URL's attempt loop the
source evaluates `not (result or result.success)` (line 387), which
dereferences `None` when no attempt ever produced a result. -/
def download_all_go (cfg : DownloaderConfig) (env : Nat → Nat → AttemptEnv) :
    List String → Nat → RunCounters → Except PyErr RunCounters
  | [], _, st => .ok st
  | url :: rest, i, st =>
    match attempt_loop cfg (env i) url cfg.max_tries 0 st none with
    | .error e => .error e
    | .ok (res?, st', _attempts) =>
      match res? with
      | none => .error .attributeError
      | some _ => download_all_go cfg env rest (i + 1) st'

/-- Source `Downloader.download_all()`. -/
def download_all (cfg : DownloaderConfig) (env : Nat → Nat → AttemptEnv)
    (urls : List String) (st : RunCounters) : Except PyErr RunCounters :=
  download_all_go cfg env urls 0 st

instance instDecidableEqExcept {ε α : Type} [DecidableEq ε] [DecidableEq α] :
    DecidableEq (Except ε α) := fun x y =>
  match x, y with
  | .ok a, .ok b =>
    if h : a = b then isTrue (by rw [h])
    else isFalse (by intro hc; cases hc; exact h rfl)
  | .error a, .error b =>
    if h : a = b then isTrue (by rw [h])
    else isFalse (by intro hc; cases hc; exact h rfl)
  | .ok _, .error _ => isFalse (by intro hc; cases hc)
  | .error _, .ok _ => isFalse (by intro hc; cases hc)

/-- The bytes of `b"hello"`. -/
def hello_body : List UInt8 := [104, 101, 108, 108, 111]

/-- Configuration of the end-to-end success scenario. -/
def c6_config : DownloaderConfig := ⟨"/tmp/data", [], 10⟩

/-- Environment of the end-to-end success scenario: destination absent,
HTTP 200 with body `b"hello"` and no headers, disk write succeeds. -/
def c6_env : AttemptEnv := ⟨fun _ => false, .response ⟨200, [], hello_body⟩, true⟩

/-- The outcome `download_file` builds in the end-to-end success scenario. -/
def c6_result : DownloadResult :=
  ⟨"https://example.com/hello.txt", true, 200, blank_rate_limits, false, 1⟩

/-- Outcome whose reset-after signal is a Unix-epoch-sized value
(retry-after unknown, remaining known and positive). -/
def epoch_outcome : DownloadResult :=
  ⟨"https://example.com/a.txt", false, 429,
   ⟨⟨5, .KNOWN⟩, ⟨0, .UNKNOWN⟩, ⟨0, .UNKNOWN⟩, ⟨2000000000, .KNOWN⟩⟩, false, 1⟩

/-- Same outcome with a relative-seconds reset-after value. -/
def relative_outcome : DownloadResult :=
  ⟨"https://example.com/a.txt", false, 429,
   ⟨⟨5, .KNOWN⟩, ⟨0, .UNKNOWN⟩, ⟨0, .UNKNOWN⟩, ⟨600, .KNOWN⟩⟩, false, 1⟩

/-- Outcome carrying a retry-after of 7200 seconds. -/
def c5_outcome : DownloadResult :=
  ⟨"https://example.com/big.bin", false, 429,
   ⟨⟨0, .UNKNOWN⟩, ⟨0, .UNKNOWN⟩, ⟨7200, .KNOWN⟩, ⟨0, .UNKNOWN⟩⟩, false, 1⟩

/-- Environment of the write-failure scenario: destination absent, HTTP
201 with a small body, disk write fails. -/
def c7_env : AttemptEnv := ⟨fun _ => false, .response ⟨201, [], [1, 2, 3]⟩, false⟩

/-- Claim C1: a URL lacking a scheme or network location makes
`download_file` return `None` (bare `return`, line 303), and `download_all`
then evaluates `result.wait_time_policy()` on it (line 382), so an
`AttributeError` escapes the batch loop instead of the error being
contained: the batch of `["Bob"]` aborts rather than running to
completion. -/
theorem invalid_url_aborts_batch :
    download_all ⟨"/tmp/data", [], 10⟩ (fun _ _ => ⟨fun _ => false, .conn_failure, true⟩)
      ["Bob"] ⟨0, 0, 0⟩ = .error .attributeError := rfl

/-- Claim C2 (counterexample): the header map with key
`ratelimitremaining` does not yield `(5, known)` — the hyphen before
`Remaining` is mandatory in the compiled pattern, so the signal is
`(0, unknown)`. -/
theorem ratelimitremaining_not_matched :
    get_quota_remaining [("ratelimitremaining", "5")] = .ok ⟨0, .UNKNOWN⟩ ∧
    get_quota_remaining [("ratelimitremaining", "5")] ≠ .ok ⟨5, .KNOWN⟩ :=
  ⟨rfl, by decide⟩

/-- Claim C2 (amended): matching is case-insensitive, the leading `X-` is
optional and the hyphen between `Rate` and `Limit` (and the one inside
`Retry-After`) is optional, but the hyphen before the final word
(`Remaining`, `Limit`, `Reset`) is mandatory: `X-Rate-Limit-Remaining` and
`RateLimit-Remaining` match while `ratelimitremaining` does not, and
likewise for the other signals. -/
theorem header_match_hyphen_rule :
    get_quota_remaining [("X-Rate-Limit-Remaining", "5")] = .ok ⟨5, .KNOWN⟩ ∧
    get_quota_remaining [("RateLimit-Remaining", "5")] = .ok ⟨5, .KNOWN⟩ ∧
    get_quota_remaining [("x-ratelimit-remaining", "5")] = .ok ⟨5, .KNOWN⟩ ∧
    get_quota_remaining [("RATE-LIMIT-REMAINING", "5")] = .ok ⟨5, .KNOWN⟩ ∧
    get_quota_remaining [("ratelimitremaining", "5")] = .ok ⟨0, .UNKNOWN⟩ ∧
    get_rate_limit [("RateLimit-Limit", "5")] = .ok ⟨5, .KNOWN⟩ ∧
    get_rate_limit [("ratelimitlimit", "5")] = .ok ⟨0, .UNKNOWN⟩ ∧
    get_retry_after [("retryafter", "5")] = .ok ⟨5, .KNOWN⟩ ∧
    get_retry_after [("RETRY-AFTER", "5")] = .ok ⟨5, .KNOWN⟩ ∧
    get_ratelimit_reset [("RateLimit-Reset", "5")] = .ok ⟨5, .KNOWN⟩ ∧
    get_ratelimit_reset [("ratelimitreset", "5")] = .ok ⟨0, .UNKNOWN⟩ :=
  ⟨rfl, rfl, rfl, rfl, rfl, rfl, rfl, rfl, rfl, rfl, rfl⟩

/-- Claim C3 (counterexample): a matching header whose value is not a
base-10 integer is not treated as absent — `int(headers[key])` raises
`ValueError`, which propagates. -/
theorem non_numeric_header_raises :
    get_quota_remaining [("X-Rate-Limit-Remaining", "abc")] = .error .valueError ∧
    get_quota_remaining [("X-Rate-Limit-Remaining", "abc")] ≠ .ok ⟨0, .UNKNOWN⟩ :=
  ⟨rfl, by decide⟩

/-- Claim C4: in the wait-time rule for `remaining` and `resetAfter` both
known and positive, the epoch branch (reset value above one billion) does
not compute `resetAfter.value − currentTime`: the source subtracts the
built-in `time.time` function object itself (missing call parentheses),
raising `TypeError`; only the relative-seconds branch returns
`duration / remaining.value`. -/
theorem epoch_reset_branch_raises :
    epoch_outcome.wait_time_policy = .error .typeError ∧
    relative_outcome.wait_time_policy = .ok 120 := by
  constructor
  · rfl
  · show DownloadResult.wait_time_policy relative_outcome = .ok 120
    simp only [DownloadResult.wait_time_policy, relative_outcome]
    norm_num

/-- Claim C6 (counterexample): in the end-to-end success scenario (HTTP
200, body `b"hello"`, no rate-limit headers) the body is written verbatim
and `successCount` becomes 1, but the wait time the policy computes for
the successful outcome of attempt 1 is not 0. -/
theorem success_first_attempt_wait_not_zero :
    download_file c6_config c6_env ⟨0, 0, 0⟩ "https://example.com/hello.txt" 1 =
      .ok (some c6_result, ⟨1, 0, 0⟩, some ("/tmp/data/hello.txt", hello_body)) ∧
    c6_result.wait_time_policy ≠ .ok 0 := by
  refine ⟨rfl, ?_⟩
  rw [show c6_result.wait_time_policy = .ok 2 from rfl]
  simp

/-- Claim C6 (amended): in the end-to-end success scenario the body
`b"hello"` is written verbatim to the resolved path
`/tmp/data/hello.txt` and `successCount` becomes 1, but the wait time for
the successful outcome of attempt 1 is `2` seconds (the unconditional
`2 ^ attemptNumber` backoff fires because attempts are numbered from 1),
not 0. -/
theorem success_first_attempt_end_to_end :
    download_file c6_config c6_env ⟨0, 0, 0⟩ "https://example.com/hello.txt" 1 =
      .ok (some c6_result, ⟨1, 0, 0⟩, some ("/tmp/data/hello.txt", hello_body)) ∧
    c6_result.wait_time_policy = .ok 2 :=
  ⟨rfl, rfl⟩

/-- Claim C5: every outcome with `skip = false` and a known, positive
retry-after signal gets wait `min(retryAfter.value, MAX_WAIT_TIME)` from
the policy, with `MAX_WAIT_TIME = 3600`. -/
theorem retry_after_wait_capped (r : DownloadResult)
    (hskip : r.skip = false)
    (hknown : r.rate_limits.retry_after.state = RateLimitState.KNOWN)
    (hpos : 0 < r.rate_limits.retry_after.n) :
    r.wait_time_policy = .ok ((min r.rate_limits.retry_after.n MAX_WAIT_TIME : Int) : ℚ) := by
  unfold DownloadResult.wait_time_policy
  rw [if_neg (by simp [hskip]), if_pos ⟨hpos, hknown⟩]

/-- Witness for claim C5: `retryAfter = (7200, known)` yields a wait of
exactly 3600 seconds. -/
theorem retry_after_wait_capped_witness :
    c5_outcome.wait_time_policy = .ok 3600 := by
  have h := retry_after_wait_capped c5_outcome rfl rfl (by decide)
  rw [h]
  norm_num [c5_outcome, MAX_WAIT_TIME, min_def]

theorem find_key_matching_eq_none (m : String → Bool) (headers : Headers) :
    find_key_matching headers m = none ↔ ∀ kv ∈ headers, m kv.1 = false := by
  induction headers with
  | nil => simp [find_key_matching]
  | cons kv rest ih =>
    obtain ⟨k, v⟩ := kv
    by_cases h : m k = true
    · simp [find_key_matching, h]
    · have hf : m k = false := by revert h; cases m k <;> simp
      simp [find_key_matching, hf, ih]

theorem find_key_matching_eq_some (m : String → Bool) (headers : Headers) (k : String)
    (h : find_key_matching headers m = some k) :
    m k = true ∧ ∃ kv ∈ headers, kv.1 = k := by
  induction headers with
  | nil => simp [find_key_matching] at h
  | cons kv0 rest ih =>
    obtain ⟨k0, v0⟩ := kv0
    by_cases hm : m k0 = true
    · simp only [find_key_matching, hm, if_true] at h
      have hk : k0 = k := by injection h
      subst hk
      exact ⟨hm, ⟨(k0, v0), by simp, rfl⟩⟩
    · have hf : m k0 = false := by revert hm; cases m k0 <;> simp
      simp only [find_key_matching, hf, Bool.false_eq_true, if_false] at h
      obtain ⟨h1, kv, hmem, hk⟩ := ih h
      exact ⟨h1, kv, by simp [hmem], hk⟩

theorem dictGet_some_of_key_mem (headers : Headers) (k : String)
    (h : ∃ kv ∈ headers, kv.1 = k) : ∃ v, dictGet headers k = some v := by
  induction headers with
  | nil => simp at h
  | cons kv0 rest ih =>
    by_cases hk : kv0.1 = k
    · exact ⟨kv0.2, by simp [dictGet, List.find?, hk]⟩
    · obtain ⟨kv, hmem, hkk⟩ := h
      rcases List.mem_cons.mp hmem with rfl | hmem'
      · exact absurd hkk hk
      · obtain ⟨v, hv⟩ := ih ⟨kv, hmem', hkk⟩
        refine ⟨v, ?_⟩
        simp only [dictGet, List.find?, hk, decide_eq_true_eq, if_false] at hv ⊢
        simpa [dictGet] using hv

theorem lookup_signal_no_match (m : String → Bool) (headers : Headers)
    (h : ∀ kv ∈ headers, m kv.1 = false) :
    lookup_signal m headers = .ok ⟨0, .UNKNOWN⟩ := by
  unfold lookup_signal
  rw [(find_key_matching_eq_none m headers).mpr h]

theorem lookup_signal_ok_known_iff (m : String → Bool) (headers : Headers)
    (p : RateLimitPair) (h : lookup_signal m headers = .ok p) :
    (p.state = RateLimitState.KNOWN ↔ ∃ kv ∈ headers, m kv.1 = true) := by
  cases hfind : find_key_matching headers m with
  | none =>
    have hnone := (find_key_matching_eq_none m headers).mp hfind
    simp only [lookup_signal, hfind] at h
    injection h with h
    subst h
    constructor
    · intro hs; exact absurd hs (by decide)
    · rintro ⟨kv, hmem, hm⟩
      rw [hnone kv hmem] at hm
      cases hm
  | some key =>
    obtain ⟨hmk, hexist⟩ := find_key_matching_eq_some m headers key hfind
    obtain ⟨v, hv⟩ := dictGet_some_of_key_mem headers key hexist
    cases hparse : pyInt v with
    | none =>
      simp only [lookup_signal, hfind, hv, hparse] at h
      exact Except.noConfusion h
    | some n =>
      simp only [lookup_signal, hfind, hv, hparse] at h
      injection h with h
      subst h
      constructor
      · intro _
        obtain ⟨kv, hmem, hk⟩ := hexist
        exact ⟨kv, hmem, hk ▸ hmk⟩
      · intro _; rfl

theorem lookup_signal_raises (m : String → Bool) (headers : Headers) (k v : String)
    (hfind : find_key_matching headers m = some k)
    (hget : dictGet headers k = some v)
    (hparse : pyInt v = none) :
    lookup_signal m headers = .error .valueError := by
  simp only [lookup_signal, hfind, hget, hparse]

/-- Claim C3 (amended): for each of the four signals, when the getter
returns a pair, `known = true` iff some header key fully matched the
signal's pattern (the value being its parsed integer); but a matching
header whose value is not a base-10 integer makes the getter raise
`ValueError` instead of yielding `(0, unknown)`. -/
theorem signal_known_characterization :
    (∀ (headers : Headers) (p : RateLimitPair), get_quota_remaining headers = .ok p →
      (p.state = RateLimitState.KNOWN ↔ ∃ kv ∈ headers, remainingKeyMatches kv.1 = true)) ∧
    (∀ (headers : Headers) (p : RateLimitPair), get_rate_limit headers = .ok p →
      (p.state = RateLimitState.KNOWN ↔ ∃ kv ∈ headers, limitKeyMatches kv.1 = true)) ∧
    (∀ (headers : Headers) (p : RateLimitPair), get_retry_after headers = .ok p →
      (p.state = RateLimitState.KNOWN ↔ ∃ kv ∈ headers, retryAfterKeyMatches kv.1 = true)) ∧
    (∀ (headers : Headers) (p : RateLimitPair), get_ratelimit_reset headers = .ok p →
      (p.state = RateLimitState.KNOWN ↔ ∃ kv ∈ headers, resetKeyMatches kv.1 = true)) ∧
    (∀ (headers : Headers) (k v : String),
      find_key_matching headers remainingKeyMatches = some k →
      dictGet headers k = some v → pyInt v = none →
      get_quota_remaining headers = .error .valueError) ∧
    (∀ (headers : Headers) (k v : String),
      find_key_matching headers limitKeyMatches = some k →
      dictGet headers k = some v → pyInt v = none →
      get_rate_limit headers = .error .valueError) ∧
    (∀ (headers : Headers) (k v : String),
      find_key_matching headers retryAfterKeyMatches = some k →
      dictGet headers k = some v → pyInt v = none →
      get_retry_after headers = .error .valueError) ∧
    (∀ (headers : Headers) (k v : String),
      find_key_matching headers resetKeyMatches = some k →
      dictGet headers k = some v → pyInt v = none →
      get_ratelimit_reset headers = .error .valueError) :=
  ⟨fun headers p h => lookup_signal_ok_known_iff _ headers p h,
   fun headers p h => lookup_signal_ok_known_iff _ headers p h,
   fun headers p h => lookup_signal_ok_known_iff _ headers p h,
   fun headers p h => lookup_signal_ok_known_iff _ headers p h,
   fun headers k v h1 h2 h3 => lookup_signal_raises _ headers k v h1 h2 h3,
   fun headers k v h1 h2 h3 => lookup_signal_raises _ headers k v h1 h2 h3,
   fun headers k v h1 h2 h3 => lookup_signal_raises _ headers k v h1 h2 h3,
   fun headers k v h1 h2 h3 => lookup_signal_raises _ headers k v h1 h2 h3⟩

/-- Witness for claim C3 (amended): a present numeric remaining header is
known, and a present non-numeric retry-after header raises. -/
theorem signal_known_characterization_witness :
    ((⟨7, RateLimitState.KNOWN⟩ : RateLimitPair).state = RateLimitState.KNOWN ↔
      ∃ kv ∈ ([("Rate-Limit-Remaining", "7")] : Headers), remainingKeyMatches kv.1 = true) ∧
    get_retry_after [("Retry-After", "zz")] = .error .valueError :=
  ⟨signal_known_characterization.1 [("Rate-Limit-Remaining", "7")] ⟨7, .KNOWN⟩ rfl,
   signal_known_characterization.2.2.2.2.2.2.1 [("Retry-After", "zz")] "Retry-After" "zz"
     rfl rfl rfl⟩

/-- Claim C10: a header key contributes to a signal only when the pattern
matches the entire key; keys containing the pattern as a proper substring
(`My-X-Rate-Limit-Remaining`, `Retry-After-Date`) are ignored, and when no
key matches the signal is `(0, unknown)`. -/
theorem full_match_required :
    get_quota_remaining [("My-X-Rate-Limit-Remaining", "5")] = .ok ⟨0, .UNKNOWN⟩ ∧
    get_retry_after [("Retry-After-Date", "5")] = .ok ⟨0, .UNKNOWN⟩ ∧
    (∀ headers : Headers, (∀ kv ∈ headers, remainingKeyMatches kv.1 = false) →
      get_quota_remaining headers = .ok ⟨0, .UNKNOWN⟩) ∧
    (∀ headers : Headers, (∀ kv ∈ headers, limitKeyMatches kv.1 = false) →
      get_rate_limit headers = .ok ⟨0, .UNKNOWN⟩) ∧
    (∀ headers : Headers, (∀ kv ∈ headers, retryAfterKeyMatches kv.1 = false) →
      get_retry_after headers = .ok ⟨0, .UNKNOWN⟩) ∧
    (∀ headers : Headers, (∀ kv ∈ headers, resetKeyMatches kv.1 = false) →
      get_ratelimit_reset headers = .ok ⟨0, .UNKNOWN⟩) :=
  ⟨rfl, rfl,
   fun headers h => lookup_signal_no_match _ headers h,
   fun headers h => lookup_signal_no_match _ headers h,
   fun headers h => lookup_signal_no_match _ headers h,
   fun headers h => lookup_signal_no_match _ headers h⟩

/-- Witness for claim C10: a header map with no fully matching key yields
the unknown signal. -/
theorem full_match_required_witness :
    get_quota_remaining [("X-RateLimit-Foo", "9")] = .ok ⟨0, .UNKNOWN⟩ :=
  full_match_required.2.2.1 [("X-RateLimit-Foo", "9")] (by decide)

/-- Claim C8: an absent retry-after header yields `(0, unknown)` while
`Retry-After: 0` yields `(0, known)`; the two are distinguished only by
the known flag, their numeric values coincide. -/
theorem retry_after_zero_vs_absent :
    get_retry_after [] = .ok ⟨0, .UNKNOWN⟩ ∧
    get_retry_after [("Retry-After", "0")] = .ok ⟨0, .KNOWN⟩ ∧
    (⟨0, .UNKNOWN⟩ : RateLimitPair) ≠ ⟨0, .KNOWN⟩ ∧
    (⟨0, .UNKNOWN⟩ : RateLimitPair).n = (⟨0, .KNOWN⟩ : RateLimitPair).n :=
  ⟨rfl, rfl, by decide, rfl⟩

/-- Claim C7: a 2xx attempt whose body write fails increments the failure
counter exactly once, still carries `success = true` (success at the HTTP
layer), and the attempt loop makes no further `download_file` calls for
that URL (the call count is 1). -/
theorem write_failure_counted_once_no_retry
    (cfg : DownloaderConfig) (env : AttemptEnv) (st : RunCounters)
    (url : String) (k : Nat) (r : HttpResponse) (rl : RateLimits) (parsed : ParsedUrl)
    (henv : env.http = .response r)
    (hwrite : env.write_ok = false)
    (hlo : 200 ≤ r.status_code) (hhi : r.status_code < 300)
    (hv : is_valid_url (pyStrip url) = some parsed)
    (hf : is_valid_filename (local_path_for cfg.download_dir cfg.prefixes_to_remove parsed) = true)
    (he : env.fs_exists (local_path_for cfg.download_dir cfg.prefixes_to_remove parsed) = false)
    (hrl : get_rate_limits r.headers = .ok rl)
    (hcl : content_length_check r.headers = .ok ()) :
    download_file cfg env st url k =
      .ok (some ⟨pyStrip url, true, r.status_code, rl, false, k⟩,
        { st with number_of_failed_downloads := st.number_of_failed_downloads + 1 }, none) ∧
    (∀ (w : ℚ) (n : Nat),
      DownloadResult.wait_time_policy ⟨pyStrip url, true, r.status_code, rl, false, 1⟩ = .ok w →
      attempt_loop cfg (fun _ => env) url (n + 1) 0 st none =
        .ok (some ⟨pyStrip url, true, r.status_code, rl, false, 1⟩,
          { st with number_of_failed_downloads := st.number_of_failed_downloads + 1 }, 1)) := by
  have hsucc : decide (200 ≤ r.status_code ∧ r.status_code < 300) = true :=
    decide_eq_true ⟨hlo, hhi⟩
  have key : ∀ k' : Nat, download_file cfg env st url k' =
      .ok (some ⟨pyStrip url, true, r.status_code, rl, false, k'⟩,
        { st with number_of_failed_downloads := st.number_of_failed_downloads + 1 }, none) := by
    intro k'
    unfold download_file
    simp only [hv]
    rw [if_neg (not_not_intro hf)]
    rw [if_neg (by simp [he])]
    simp only [henv, hrl, hcl]
    rw [if_pos hsucc]
    rw [if_neg (by simp [hwrite])]
    rw [hsucc]
  refine ⟨key k, ?_⟩
  intro w n hw
  simp only [attempt_loop, Nat.zero_add]
  simp only [key 1]
  simp only [hw]
  simp

/-- Witness for claim C7: HTTP 201 with a failing disk write yields a
success-flagged outcome, one failure counted, and a single attempt. -/
theorem write_failure_counted_once_no_retry_witness :
    download_file c6_config c7_env ⟨0, 0, 0⟩ "https://example.com/a.bin" 3 =
      .ok (some ⟨"https://example.com/a.bin", true, 201, blank_rate_limits, false, 3⟩,
        ⟨0, 1, 0⟩, none) ∧
    attempt_loop c6_config (fun _ => c7_env) "https://example.com/a.bin" 10 0 ⟨0, 0, 0⟩ none =
      .ok (some ⟨"https://example.com/a.bin", true, 201, blank_rate_limits, false, 1⟩,
        ⟨0, 1, 0⟩, 1) := by
  have h := write_failure_counted_once_no_retry c6_config c7_env ⟨0, 0, 0⟩
    "https://example.com/a.bin" 3 ⟨201, [], [1, 2, 3]⟩ blank_rate_limits
    ⟨"https", "example.com", "/a.bin"⟩ rfl rfl (by decide) (by decide) rfl rfl rfl rfl rfl
  exact ⟨h.1, h.2 ((2 : ℚ) ^ 1) 9 rfl⟩

theorem download_file_counters (cfg : DownloaderConfig) (env : AttemptEnv)
    (st : RunCounters) (url : String) (k : Nat)
    (res : Option DownloadResult) (st' : RunCounters) (w : Option (String × List UInt8))
    (h : download_file cfg env st url k = .ok (res, st', w)) :
    (st'.number_of_successful_downloads = st.number_of_successful_downloads ∨
      st'.number_of_successful_downloads = st.number_of_successful_downloads + 1) ∧
    (st'.number_of_failed_downloads = st.number_of_failed_downloads ∨
      st'.number_of_failed_downloads = st.number_of_failed_downloads + 1) ∧
    (st'.number_of_existing_files = st.number_of_existing_files ∨
      st'.number_of_existing_files = st.number_of_existing_files + 1) ∧
    st'.number_of_successful_downloads + st'.number_of_failed_downloads +
        st'.number_of_existing_files ≤
      st.number_of_successful_downloads + st.number_of_failed_downloads +
        st.number_of_existing_files + 1 := by
  unfold download_file at h
  cases hvu : is_valid_url (pyStrip url) with
  | none =>
    simp only [hvu, Except.ok.injEq, Prod.mk.injEq] at h
    obtain ⟨-, h2, -⟩ := h
    subst h2
    exact ⟨Or.inl rfl, Or.inl rfl, Or.inl rfl, Nat.le_succ _⟩
  | some parsed =>
    simp only [hvu] at h
    by_cases hvf : is_valid_filename
        (local_path_for cfg.download_dir cfg.prefixes_to_remove parsed) = true
    · rw [if_neg (not_not_intro hvf)] at h
      by_cases hex : env.fs_exists
          (local_path_for cfg.download_dir cfg.prefixes_to_remove parsed) = true
      · rw [if_pos hex] at h
        simp only [Except.ok.injEq, Prod.mk.injEq] at h
        obtain ⟨-, h2, -⟩ := h
        subst h2
        exact ⟨Or.inl rfl, Or.inl rfl, Or.inr rfl, Nat.le_refl _⟩
      · rw [if_neg hex] at h
        cases henv : env.http with
        | conn_failure =>
          simp only [henv, Except.ok.injEq, Prod.mk.injEq] at h
          obtain ⟨-, h2, -⟩ := h
          subst h2
          refine ⟨Or.inl rfl, Or.inr rfl, Or.inl rfl, ?_⟩
          show st.number_of_successful_downloads + (st.number_of_failed_downloads + 1) +
              st.number_of_existing_files ≤ st.number_of_successful_downloads +
              st.number_of_failed_downloads + st.number_of_existing_files + 1
          omega
        | response r =>
          simp only [henv] at h
          cases hrl : get_rate_limits r.headers with
          | error e => rw [hrl] at h; exact Except.noConfusion h
          | ok rate_limits =>
            simp only [hrl] at h
            cases hclc : content_length_check r.headers with
            | error e => rw [hclc] at h; exact Except.noConfusion h
            | ok u =>
              simp only [hclc] at h
              by_cases hs : decide (200 ≤ r.status_code ∧ r.status_code < 300) = true
              · rw [if_pos hs] at h
                by_cases hw : env.write_ok = true
                · rw [if_pos hw] at h
                  simp only [Except.ok.injEq, Prod.mk.injEq] at h
                  obtain ⟨-, h2, -⟩ := h
                  subst h2
                  refine ⟨Or.inr rfl, Or.inl rfl, Or.inl rfl, ?_⟩
                  show st.number_of_successful_downloads + 1 + st.number_of_failed_downloads +
                      st.number_of_existing_files ≤ st.number_of_successful_downloads +
                      st.number_of_failed_downloads + st.number_of_existing_files + 1
                  omega
                · rw [if_neg hw] at h
                  simp only [Except.ok.injEq, Prod.mk.injEq] at h
                  obtain ⟨-, h2, -⟩ := h
                  subst h2
                  refine ⟨Or.inl rfl, Or.inr rfl, Or.inl rfl, ?_⟩
                  show st.number_of_successful_downloads + (st.number_of_failed_downloads + 1) +
                      st.number_of_existing_files ≤ st.number_of_successful_downloads +
                      st.number_of_failed_downloads + st.number_of_existing_files + 1
                  omega
              · rw [if_neg hs] at h
                simp only [Except.ok.injEq, Prod.mk.injEq] at h
                obtain ⟨-, h2, -⟩ := h
                subst h2
                refine ⟨Or.inl rfl, Or.inr rfl, Or.inl rfl, ?_⟩
                show st.number_of_successful_downloads + (st.number_of_failed_downloads + 1) +
                    st.number_of_existing_files ≤ st.number_of_successful_downloads +
                    st.number_of_failed_downloads + st.number_of_existing_files + 1
                omega
    · rw [if_pos hvf] at h
      simp only [Except.ok.injEq, Prod.mk.injEq] at h
      obtain ⟨-, h2, -⟩ := h
      subst h2
      exact ⟨Or.inl rfl, Or.inl rfl, Or.inl rfl, Nat.le_succ _⟩

theorem attempt_loop_mono (cfg : DownloaderConfig) (env : Nat → AttemptEnv) (url : String) :
    ∀ (fuel k : Nat) (st : RunCounters) (res0 res : Option DownloadResult)
      (st' : RunCounters) (m : Nat),
      attempt_loop cfg env url fuel k st res0 = .ok (res, st', m) →
      st.number_of_successful_downloads ≤ st'.number_of_successful_downloads ∧
      st.number_of_failed_downloads ≤ st'.number_of_failed_downloads ∧
      st.number_of_existing_files ≤ st'.number_of_existing_files := by
  intro fuel
  induction fuel with
  | zero =>
    intro k st res0 res st' m h
    simp only [attempt_loop, Except.ok.injEq, Prod.mk.injEq] at h
    obtain ⟨-, h2, -⟩ := h
    subst h2
    exact ⟨Nat.le_refl _, Nat.le_refl _, Nat.le_refl _⟩
  | succ n ih =>
    intro k st res0 res st' m h
    simp only [attempt_loop] at h
    cases hdf : download_file cfg (env k) st url (k + 1) with
    | error e => rw [hdf] at h; exact Except.noConfusion h
    | ok t =>
      obtain ⟨res?, st1, w⟩ := t
      simp only [hdf] at h
      obtain ⟨ha, hb, hc, -⟩ :=
        download_file_counters cfg (env k) st url (k + 1) res? st1 w hdf
      have ha' : st.number_of_successful_downloads ≤ st1.number_of_successful_downloads := by
        rcases ha with h' | h' <;> omega
      have hb' : st.number_of_failed_downloads ≤ st1.number_of_failed_downloads := by
        rcases hb with h' | h' <;> omega
      have hc' : st.number_of_existing_files ≤ st1.number_of_existing_files := by
        rcases hc with h' | h' <;> omega
      cases res? with
      | none => exact Except.noConfusion h
      | some res1 =>
        cases hwp : res1.wait_time_policy with
        | error e =>
          simp only [hwp] at h
          exact Except.noConfusion h
        | ok s =>
          simp only [hwp] at h
          by_cases hbr : (res1.success || res1.skip) = true
          · rw [if_pos hbr] at h
            simp only [Except.ok.injEq, Prod.mk.injEq] at h
            obtain ⟨-, h2, -⟩ := h
            subst h2
            exact ⟨ha', hb', hc'⟩
          · rw [if_neg hbr] at h
            cases hrec : attempt_loop cfg env url n (k + 1) st1 (some res1) with
            | error e => rw [hrec] at h; exact Except.noConfusion h
            | ok t2 =>
              obtain ⟨r2, st2, m2⟩ := t2
              simp only [hrec, Except.ok.injEq, Prod.mk.injEq] at h
              obtain ⟨-, h2, -⟩ := h
              subst h2
              have hrest := ih (k + 1) st1 (some res1) r2 st2 m2 hrec
              exact ⟨Nat.le_trans ha' hrest.1, Nat.le_trans hb' hrest.2.1,
                Nat.le_trans hc' hrest.2.2⟩

theorem download_all_go_mono (cfg : DownloaderConfig) (env : Nat → Nat → AttemptEnv) :
    ∀ (urls : List String) (i : Nat) (st st' : RunCounters),
      download_all_go cfg env urls i st = .ok st' →
      st.number_of_successful_downloads ≤ st'.number_of_successful_downloads ∧
      st.number_of_failed_downloads ≤ st'.number_of_failed_downloads ∧
      st.number_of_existing_files ≤ st'.number_of_existing_files := by
  intro urls
  induction urls with
  | nil =>
    intro i st st' h
    simp only [download_all_go, Except.ok.injEq] at h
    subst h
    exact ⟨Nat.le_refl _, Nat.le_refl _, Nat.le_refl _⟩
  | cons url rest ih =>
    intro i st st' h
    simp only [download_all_go] at h
    cases hal : attempt_loop cfg (env i) url cfg.max_tries 0 st none with
    | error e => rw [hal] at h; exact Except.noConfusion h
    | ok t =>
      obtain ⟨res?, st1, m⟩ := t
      simp only [hal] at h
      have hstep := attempt_loop_mono cfg (env i) url cfg.max_tries 0 st none res? st1 m hal
      cases res? with
      | none => exact Except.noConfusion h
      | some r1 =>
        have hrest := ih (i + 1) st1 st' h
        exact ⟨Nat.le_trans hstep.1 hrest.1, Nat.le_trans hstep.2.1 hrest.2.1,
          Nat.le_trans hstep.2.2 hrest.2.2⟩

/-- Claim C9: each `download_file` call leaves every counter unchanged or
incremented by exactly 1 and changes at most one counter (the counter sum
grows by at most 1), and across a whole `download_all` batch run no
counter ever decreases. -/
theorem counters_monotone :
    (∀ (cfg : DownloaderConfig) (env : AttemptEnv) (st : RunCounters) (url : String)
      (k : Nat) (res : Option DownloadResult) (st' : RunCounters)
      (w : Option (String × List UInt8)),
      download_file cfg env st url k = .ok (res, st', w) →
      (st'.number_of_successful_downloads = st.number_of_successful_downloads ∨
        st'.number_of_successful_downloads = st.number_of_successful_downloads + 1) ∧
      (st'.number_of_failed_downloads = st.number_of_failed_downloads ∨
        st'.number_of_failed_downloads = st.number_of_failed_downloads + 1) ∧
      (st'.number_of_existing_files = st.number_of_existing_files ∨
        st'.number_of_existing_files = st.number_of_existing_files + 1) ∧
      st'.number_of_successful_downloads + st'.number_of_failed_downloads +
          st'.number_of_existing_files ≤
        st.number_of_successful_downloads + st.number_of_failed_downloads +
          st.number_of_existing_files + 1) ∧
    (∀ (cfg : DownloaderConfig) (env : Nat → Nat → AttemptEnv) (urls : List String)
      (st st' : RunCounters),
      download_all cfg env urls st = .ok st' →
      st.number_of_successful_downloads ≤ st'.number_of_successful_downloads ∧
      st.number_of_failed_downloads ≤ st'.number_of_failed_downloads ∧
      st.number_of_existing_files ≤ st'.number_of_existing_files) :=
  ⟨download_file_counters,
   fun cfg env urls st st' h => download_all_go_mono cfg env urls 0 st st' h⟩

/-- Witness for claim C9: the end-to-end success scenario increments the
success counter once and the batch never decreases any counter. -/
theorem counters_monotone_witness :
    (((1 : Nat) = 0 ∨ (1 : Nat) = 0 + 1) ∧ ((0 : Nat) = 0 ∨ (0 : Nat) = 0 + 1) ∧
      ((0 : Nat) = 0 ∨ (0 : Nat) = 0 + 1) ∧ 1 + 0 + 0 ≤ 0 + 0 + 0 + 1) ∧
    ((0 : Nat) ≤ 1 ∧ (0 : Nat) ≤ 0 ∧ (0 : Nat) ≤ 0) :=
  ⟨counters_monotone.1 c6_config c6_env ⟨0, 0, 0⟩ "https://example.com/hello.txt" 1
      (some c6_result) ⟨1, 0, 0⟩ (some ("/tmp/data/hello.txt", hello_body)) rfl,
   counters_monotone.2 c6_config (fun _ _ => c6_env) ["https://example.com/hello.txt"]
      ⟨0, 0, 0⟩ ⟨1, 0, 0⟩ rfl⟩
